import Mathlib

/-!
# Verification of the AcuMate approval-and-learning core

Shallow embedding of `erp_copilot/managers/pending_action_manager.py`
(`PendingActionManager`) and `erp_copilot/services/learning_database.py`
(`LearningEntry`, `LearningDatabase`), with theorems settling the spec's
claims about the proposal lifecycle and the feedback/guidance pipeline.

Conventions of the embedding:
* Python `dict` objects (insertion-ordered, update-in-place) are modelled as
  association lists `List (String × α)` with `dictGet` / `dictSet`.
* `datetime` values in the proposal manager are minutes as `ℤ` (the TTL of
  30 minutes and the 24-hour retention window become `30` and `1440`);
  `datetime.now()` is an explicit argument at every call site.
* `datetime` values in the learning database are an abstract `PyDateTime`
  carrying the total-order stamp and the `.hour` component the code reads.
* Python float arithmetic on scores and rates is modelled exactly over `ℚ`.
* Fresh identifiers (`uuid4`, the `pending_...` id) are explicit arguments.
-/

/-- First-match lookup in an association list: Python `d.get(k)`. -/
def dictGet {α : Type} : List (String × α) → String → Option α
  | [], _ => none
  | (k', v) :: rest, k => if k' = k then some v else dictGet rest k

/-- Python `d[k] = v`: replace the first binding of `k` in place (keeping its
position), or append a new binding when `k` is absent. -/
def dictSet {α : Type} : List (String × α) → String → α → List (String × α)
  | [], k, v => [(k, v)]
  | (k', v') :: rest, k, v =>
      if k' = k then (k, v) :: rest else (k', v') :: dictSet rest k v

/-- Python `l[-n:]` for `n ≥ 1`: the last `n` elements (all of `l` when
`l.length ≤ n`). -/
def lastN {α : Type} (n : ℕ) (l : List α) : List α := l.drop (l.length - n)

/-! ## PendingActionManager (`pending_action_manager.py`) -/

/-- The status strings of a pending action:
`"pending" | "confirmed" | "rejected" | "expired" | "executed"`. -/
inductive Status : Type
  | pending
  | confirmed
  | rejected
  | expired
  | executed
deriving DecidableEq, Repr

/-- One value of `self.pending_actions`: the `pending_data` dict created by
`create_pending_action`, plus the optional stamp fields added by the
transition methods. `original_action`, `suggested_action` and
`llm_suggestion` are opaque to the manager and modelled as strings. -/
structure PendingAction : Type where
  action_id : String
  session_id : String
  created_at : ℤ
  expires_at : ℤ
  original_action : String
  suggested_action : String
  llm_suggestion : String
  status : Status
  confirmed_at : Option ℤ
  rejected_at : Option ℤ
  executed_at : Option ℤ
  execution_result : Option String
deriving DecidableEq, Repr

/-- The manager's store `self.pending_actions`. -/
abbrev Store : Type := List (String × PendingAction)

/-- `expiry_minutes = 30`. -/
def expiry_minutes : ℤ := 30

/-- `_cleanup_expired`: first pass marks every Pending action past its
`expires_at` as expired; second pass deletes every action whose `expires_at`
is before `now - 24h` (1440 minutes), regardless of status. -/
def cleanup_expired (now : ℤ) (store : Store) : Store :=
  let marked : Store := store.map (fun p =>
    if p.2.expires_at < now ∧ p.2.status = Status.pending
    then (p.1, { p.2 with status := Status.expired }) else p)
  marked.filter (fun p => ¬ (p.2.expires_at < now - 1440))

/-- `create_pending_action`: build the `pending_data` dict (status `pending`,
`expires_at = now + 30`), insert it, run the cleanup, return the id. -/
def create_pending_action (now : ℤ) (action_id session_id original_action
    suggested_action llm_suggestion : String) (store : Store) : String × Store :=
  let pending_data : PendingAction :=
    { action_id := action_id
      session_id := session_id
      created_at := now
      expires_at := now + expiry_minutes
      original_action := original_action
      suggested_action := suggested_action
      llm_suggestion := llm_suggestion
      status := Status.pending
      confirmed_at := none
      rejected_at := none
      executed_at := none
      execution_result := none }
  (action_id, cleanup_expired now (dictSet store action_id pending_data))

/-- `confirm_action`: `None` when the id is unknown or the status is not
`pending`; when the TTL has passed, set the status to `expired` and return
`None`; otherwise set status `confirmed`, stamp `confirmed_at`, and return
the updated action. -/
def confirm_action (now : ℤ) (store : Store) (action_id : String) :
    Option PendingAction × Store :=
  match dictGet store action_id with
  | none => (none, store)
  | some action =>
      if action.status ≠ Status.pending then (none, store)
      else if action.expires_at < now then
        (none, dictSet store action_id { action with status := Status.expired })
      else
        let action' := { action with status := Status.confirmed, confirmed_at := some now }
        (some action', dictSet store action_id action')

/-- `reject_action`: transitions `pending → rejected` stamping `rejected_at`;
returns `None` (leaving the store untouched) in every other case. -/
def reject_action (now : ℤ) (store : Store) (action_id : String) :
    Option PendingAction × Store :=
  match dictGet store action_id with
  | none => (none, store)
  | some action =>
      if action.status = Status.pending then
        let action' := { action with status := Status.rejected, rejected_at := some now }
        (some action', dictSet store action_id action')
      else (none, store)

/-- `mark_executed`: for any existing action, set status `executed` and stamp
`executed_at` and `execution_result`; `None` only when the id is unknown. -/
def mark_executed (now : ℤ) (store : Store) (action_id : String)
    (execution_result : String) : Option PendingAction × Store :=
  match dictGet store action_id with
  | none => (none, store)
  | some action =>
      let action' := { action with
        status := Status.executed
        executed_at := some now
        execution_result := some execution_result }
      (some action', dictSet store action_id action')

/-! ## LearningDatabase (`learning_database.py`) -/

/-- A `datetime` value as the learning code observes it: a total-order stamp
(microseconds since the epoch) plus the `.hour` component read by
`_analyze_session_pattern`. -/
structure PyDateTime : Type where
  stamp : ℤ
  hour : ℕ
deriving DecidableEq, Repr

/-- `datetime.isoformat()`. A microsecond-precision datetime round-trips
exactly through `isoformat`/`fromisoformat`, so the embedding identifies the
ISO-8601 string with the datetime it denotes. -/
def PyDateTime.isoformat (d : PyDateTime) : PyDateTime := d

/-- `datetime.fromisoformat()` (see `PyDateTime.isoformat`). -/
def PyDateTime.fromisoformat (s : PyDateTime) : PyDateTime := s

/-- The documented values of `user_action`: `"accepted"`, `"rejected"`,
`"ignored"` (`record_feedback`'s contract; `_update_patterns` indexes the
per-pattern counters by this string). -/
inductive UserAction : Type
  | accepted
  | rejected
  | ignored
deriving DecidableEq, Repr

/-- The two fields the learning code reads out of an action dict:
`a.get("type")` and `a.get("payload", {}).get("screen")`. A missing key (or a
missing `payload` dict) is `none`. -/
structure ActionDict : Type where
  type? : Option String
  screen? : Option String
deriving DecidableEq, Repr

/-- The fields read out of a `suggested_action` dict: `method` and
`endpoint`. -/
structure SuggestedActionDict : Type where
  method? : Option String
  endpoint? : Option String
deriving DecidableEq, Repr

/-- The fields read out of a `business_context` dict, with the defaults the
code supplies: `most_common_screens` (default `[]`), `session_length`
(default `0`), `action_frequency` (default `{}`). -/
structure BusinessContext : Type where
  most_common_screens : List String
  session_length : ℕ
  action_frequency : List (String × ℕ)
deriving DecidableEq, Repr

/-- The fields read out of a `suggestion_context` dict:
`original_action` (default `{}`), `suggested_action` (absent/`None`/`{}` all
behave as `none`), `business_suggestion` (default `""`), `business_context`
(default `{}`). -/
structure SuggestionContext : Type where
  original_action : ActionDict
  suggested_action : Option SuggestedActionDict
  business_suggestion : String
  business_context : BusinessContext
deriving DecidableEq, Repr

/-- Result of `_analyze_session_pattern`. -/
structure SessionPattern : Type where
  session_length : ℕ
  action_frequency : List (String × ℕ)
  common_screens : List String
  time_of_day : ℕ
deriving DecidableEq, Repr

/-- Result of `_extract_pattern_features`. -/
structure PatternFeatures : Type where
  action_type : Option String
  screen : Option String
  suggested_method : Option String
  suggested_endpoint : Option String
  business_context : BusinessContext
  session_pattern : SessionPattern
deriving DecidableEq, Repr

/-- `_analyze_session_pattern`: session statistics plus the hour of the
entry's timestamp. -/
def analyze_session_pattern (ctx : SuggestionContext) (timestamp : PyDateTime) :
    SessionPattern :=
  { session_length := ctx.business_context.session_length
    action_frequency := ctx.business_context.action_frequency
    common_screens := ctx.business_context.most_common_screens
    time_of_day := timestamp.hour }

/-- `_extract_pattern_features`. -/
def extract_pattern_features (ctx : SuggestionContext) (timestamp : PyDateTime) :
    PatternFeatures :=
  { action_type := ctx.original_action.type?
    screen := ctx.original_action.screen?
    suggested_method := ctx.suggested_action.bind (·.method?)
    suggested_endpoint := ctx.suggested_action.bind (·.endpoint?)
    business_context := ctx.business_context
    session_pattern := analyze_session_pattern ctx timestamp }

/-- `_generate_context_hash`: `str(hash(json.dumps({...}, sort_keys=True)))`.
Python's `hash` is an unspecified deterministic function of the canonical
string; the model represents it by the canonical serialization itself
(`action_type`, `screen`, and the first 100 characters of
`business_suggestion`, in sorted-key order). -/
def generate_context_hash (ctx : SuggestionContext) : String :=
  (match ctx.original_action.type? with | none => "null" | some s => s) ++ "|" ++
  (ctx.business_suggestion.take 100) ++ "|" ++
  (match ctx.original_action.screen? with | none => "null" | some s => s)

/-- A `LearningEntry` object. -/
structure LearningEntry : Type where
  id : String
  timestamp : PyDateTime
  suggestion_context : SuggestionContext
  user_action : UserAction
  feedback_reason : Option String
  execution_result : Option String
  context_hash : String
  pattern_features : PatternFeatures
deriving DecidableEq, Repr

/-- `LearningEntry.__init__`: `uuid4()` and `datetime.now()` are the explicit
`freshId` and `now` arguments; `context_hash` and `pattern_features` are
derived from the context at construction time. -/
def LearningEntry.make (freshId : String) (now : PyDateTime)
    (suggestion_context : SuggestionContext) (user_action : UserAction)
    (feedback_reason : Option String) (execution_result : Option String) :
    LearningEntry :=
  { id := freshId
    timestamp := now
    suggestion_context := suggestion_context
    user_action := user_action
    feedback_reason := feedback_reason
    execution_result := execution_result
    context_hash := generate_context_hash suggestion_context
    pattern_features := extract_pattern_features suggestion_context now }

/-- The dictionary produced by `LearningEntry.to_dict` (the `timestamp` slot
holds the `isoformat` string, identified with its datetime; see
`PyDateTime.isoformat`). -/
structure LearningEntryDict : Type where
  id : String
  timestamp : PyDateTime
  suggestion_context : SuggestionContext
  user_action : UserAction
  feedback_reason : Option String
  execution_result : Option String
  context_hash : String
  pattern_features : PatternFeatures
deriving DecidableEq, Repr

/-- `LearningEntry.to_dict`. -/
def LearningEntry.to_dict (e : LearningEntry) : LearningEntryDict :=
  { id := e.id
    timestamp := e.timestamp.isoformat
    suggestion_context := e.suggestion_context
    user_action := e.user_action
    feedback_reason := e.feedback_reason
    execution_result := e.execution_result
    context_hash := e.context_hash
    pattern_features := e.pattern_features }

/-- `LearningEntry.from_dict`: call the constructor (which draws a fresh id
and timestamp and recomputes `context_hash`/`pattern_features`), then
overwrite `id`, `timestamp`, `context_hash` and `pattern_features` with the
stored values. -/
def LearningEntry.from_dict (freshId : String) (now : PyDateTime)
    (data : LearningEntryDict) : LearningEntry :=
  let entry := LearningEntry.make freshId now data.suggestion_context
    data.user_action data.feedback_reason data.execution_result
  { entry with
    id := data.id
    timestamp := PyDateTime.fromisoformat data.timestamp
    context_hash := data.context_hash
    pattern_features := data.pattern_features }

/-- One summary stored in the rolling lists of a pattern
(`suggestion_summary` in `_update_patterns`; `reason` is added only on the
rejected path). -/
structure SuggestionSummary : Type where
  business_suggestion : String
  suggested_action : Option SuggestedActionDict
  timestamp : PyDateTime
  reason : Option String
deriving DecidableEq, Repr

/-- One value of `self.patterns`. -/
structure PatternStats : Type where
  total_suggestions : ℕ
  accepted : ℕ
  rejected : ℕ
  ignored : ℕ
  success_rate : ℚ
  common_rejection_reasons : List (String × ℕ)
  successful_suggestions : List SuggestionSummary
  failed_suggestions : List SuggestionSummary
  last_updated : PyDateTime
deriving DecidableEq, Repr

/-- The fresh stats dict inserted for an unseen `pattern_key`. -/
def init_pattern_stats (now : PyDateTime) : PatternStats :=
  { total_suggestions := 0
    accepted := 0
    rejected := 0
    ignored := 0
    success_rate := 0
    common_rejection_reasons := []
    successful_suggestions := []
    failed_suggestions := []
    last_updated := now }

/-- Python `f"{x}"` on an `Optional[str]`: `None` prints as `"None"`. -/
def pyStrOpt : Option String → String
  | none => "None"
  | some s => s

/-- `pattern_key = f"{features['action_type']}_{features['screen']}"`. -/
def pattern_key_of_features (f : PatternFeatures) : String :=
  pyStrOpt f.action_type ++ "_" ++ pyStrOpt f.screen

/-- The pattern key `get_suggestion_guidance` derives from `current_action`:
`f"{action_type}_{screen}"` with the same missing-key behavior. -/
def pattern_key_of_action (a : ActionDict) : String :=
  pyStrOpt a.type? ++ "_" ++ pyStrOpt a.screen?

/-- `pattern[entry.user_action] += 1`. -/
def bump_user_action (p : PatternStats) : UserAction → PatternStats
  | UserAction.accepted => { p with accepted := p.accepted + 1 }
  | UserAction.rejected => { p with rejected := p.rejected + 1 }
  | UserAction.ignored => { p with ignored := p.ignored + 1 }

/-- `reasons[r] = reasons.get(r, 0) + 1`. -/
def histogram_bump (l : List (String × ℕ)) (k : String) : List (String × ℕ) :=
  dictSet l k ((dictGet l k).getD 0 + 1)

/-- The `suggestion_summary` dict built by `_update_patterns` (text truncated
to 200 characters; `reason` absent at this point). -/
def make_suggestion_summary (e : LearningEntry) : SuggestionSummary :=
  { business_suggestion := e.suggestion_context.business_suggestion.take 200
    suggested_action := e.suggestion_context.suggested_action
    timestamp := e.timestamp.isoformat
    reason := none }

/-- The sequence of mutations `_update_patterns` applies to the stats dict
for the entry's pattern key: bump `total_suggestions` and the bucket named
by `user_action`, recompute `success_rate = accepted / total_suggestions`,
stamp `last_updated`, count the rejection reason when present, and append
the summary to the matching rolling list truncated to its last 10 elements
(`[-10:]`). -/
def updated_stats (now : PyDateTime) (e : LearningEntry) (p0 : PatternStats) :
    PatternStats :=
  let p1 := bump_user_action { p0 with total_suggestions := p0.total_suggestions + 1 }
    e.user_action
  let p2 := { p1 with
    success_rate := (p1.accepted : ℚ) / (p1.total_suggestions : ℚ)
    last_updated := now }
  let p3 := match e.user_action, e.feedback_reason with
    | UserAction.rejected, some r =>
        { p2 with common_rejection_reasons := histogram_bump p2.common_rejection_reasons r }
    | _, _ => p2
  let summary := make_suggestion_summary e
  match e.user_action with
  | UserAction.accepted =>
      { p3 with successful_suggestions := lastN 10 (p3.successful_suggestions ++ [summary]) }
  | UserAction.rejected =>
      let summary' := { summary with reason := e.feedback_reason }
      { p3 with failed_suggestions := lastN 10 (p3.failed_suggestions ++ [summary']) }
  | UserAction.ignored => p3

/-- `_update_patterns`: insert a fresh stats dict for an unseen key, then
mutate the stats stored under the entry's pattern key (see
`updated_stats`). -/
def update_patterns (now : PyDateTime) (e : LearningEntry)
    (patterns : List (String × PatternStats)) : List (String × PatternStats) :=
  let pattern_key := pattern_key_of_features e.pattern_features
  let p0 := (dictGet patterns pattern_key).getD (init_pattern_stats now)
  dictSet patterns pattern_key (updated_stats now e p0)

/-- The in-memory state of a `LearningDatabase`: the entry ledger and the
pattern table (persistence mirrors this state and is not modelled). -/
structure LearningDatabase : Type where
  entries : List LearningEntry
  patterns : List (String × PatternStats)

/-- `record_feedback`: build the entry, append it to the ledger, update the
pattern table. -/
def record_feedback (freshId : String) (now : PyDateTime)
    (suggestion_context : SuggestionContext) (user_action : UserAction)
    (feedback_reason : Option String) (execution_result : Option String)
    (db : LearningDatabase) : String × LearningDatabase :=
  let entry := LearningEntry.make freshId now suggestion_context user_action
    feedback_reason execution_result
  (entry.id,
    { entries := db.entries ++ [entry]
      patterns := update_patterns now entry db.patterns })

/-- The arguments of one `record_feedback` call (`freshId`/`now` stand for
the `uuid4()`/`datetime.now()` drawn during the call). -/
structure FeedbackCall : Type where
  freshId : String
  now : PyDateTime
  suggestion_context : SuggestionContext
  user_action : UserAction
  feedback_reason : Option String
  execution_result : Option String

/-- The state transition of one `record_feedback` call. -/
def feedback_step (db : LearningDatabase) (c : FeedbackCall) : LearningDatabase :=
  (record_feedback c.freshId c.now c.suggestion_context c.user_action
    c.feedback_reason c.execution_result db).2

/-- Run a sequence of `record_feedback` calls against a fresh database. -/
def run_feedback (calls : List FeedbackCall) : LearningDatabase :=
  calls.foldl feedback_step { entries := [], patterns := [] }

/-- `str.lower()` (character-wise lowercasing). -/
def strLower (s : String) : String := String.mk (s.data.map Char.toLower)

/-- `_contexts_similar`: with both `most_common_screens` sets nonempty,
compare the Jaccard overlap to `0.3`; otherwise `False`. -/
def contexts_similar (context1 context2 : BusinessContext) : Bool :=
  let common_screens1 : Finset String := context1.most_common_screens.toFinset
  let common_screens2 : Finset String := context2.most_common_screens.toFinset
  if common_screens1 ≠ ∅ ∧ common_screens2 ≠ ∅ then
    let overlap := (common_screens1 ∩ common_screens2).card
    let union := (common_screens1 ∪ common_screens2).card
    if 0 < union then decide (((overlap : ℚ) / (union : ℚ)) > 3/10) else false
  else false

/-- One element of the `similar` list built by `_find_similar_contexts`. -/
structure SimilarContext : Type where
  action : UserAction
  similarity_score : ℚ
  business_suggestion : String
  feedback_reason : Option String
  timestamp : PyDateTime
deriving DecidableEq, Repr

/-- The dict appended for a matching entry (suggestion text truncated to 100
characters). -/
def similar_entry (e : LearningEntry) (score : ℚ) : SimilarContext :=
  { action := e.user_action
    similarity_score := score
    business_suggestion := e.suggestion_context.business_suggestion.take 100
    feedback_reason := e.feedback_reason
    timestamp := e.timestamp.isoformat }

/-- The similarity score `_find_similar_contexts` computes for one entry:
start from 0, add 0.5 on a case-insensitive screen match, 0.3 on an exact
action-type match, 0.2 when `_contexts_similar` holds. -/
def entry_similarity (current_action : ActionDict) (business_context : BusinessContext)
    (entry : LearningEntry) : ℚ :=
  let current_screen := strLower (current_action.screen?.getD "")
  let current_type := current_action.type?.getD ""
  let entry_screen := strLower (entry.suggestion_context.original_action.screen?.getD "")
  let entry_type := entry.suggestion_context.original_action.type?.getD ""
  let score1 : ℚ := (0 : ℚ) + (if entry_screen = current_screen then 5/10 else 0)
  let score2 : ℚ := score1 + (if entry_type = current_type then 3/10 else 0)
  score2 + (if contexts_similar business_context entry.suggestion_context.business_context
            then 2/10 else 0)

/-- `_find_similar_contexts`: loop over the last 50 ledger entries appending
every entry whose score reaches 0.5, then sort by descending score (Python's
`sorted` is stable; so is `insertionSort` under this reflexive total order)
and keep the first 5. -/
def find_similar_contexts (entries : List LearningEntry) (current_action : ActionDict)
    (business_context : BusinessContext) : List SimilarContext :=
  let similar := (lastN 50 entries).foldl
    (fun similar entry =>
      if entry_similarity current_action business_context entry ≥ 5/10
      then similar ++ [similar_entry entry
        (entry_similarity current_action business_context entry)]
      else similar)
    []
  (similar.insertionSort (fun x y => y.similarity_score ≤ x.similarity_score)).take 5

/-- The guidance dict returned by `get_suggestion_guidance`. -/
structure Guidance : Type where
  should_suggest : Bool
  confidence_score : ℚ
  suggested_approach : String
  avoid_patterns : List String
  preferred_patterns : List String
  historical_success_rate : ℚ
  similar_contexts : List SimilarContext
deriving DecidableEq, Repr

/-- The default guidance dict built at the top of `get_suggestion_guidance`. -/
def default_guidance : Guidance :=
  { should_suggest := true
    confidence_score := 5/10
    suggested_approach := "standard"
    avoid_patterns := []
    preferred_patterns := []
    historical_success_rate := 0
    similar_contexts := [] }

/-- `get_suggestion_guidance`: derive the pattern key from `current_action`;
when stats exist for it, copy the success rate, cap the confidence at 0.9,
switch to the cautious defaults below a 0.3 success rate, take the top-3
rejection reasons by descending count and the texts of the last 3 successful
suggestions; always attach the similar-context scan. -/
def get_suggestion_guidance (db : LearningDatabase) (current_action : ActionDict)
    (business_context : BusinessContext) : Guidance :=
  let pattern_key := pattern_key_of_action current_action
  let g : Guidance :=
    match dictGet db.patterns pattern_key with
    | none => default_guidance
    | some pattern =>
        let g1 := { default_guidance with
          historical_success_rate := pattern.success_rate
          confidence_score := min (9/10) pattern.success_rate }
        let g2 :=
          if pattern.success_rate < 3/10
          then { g1 with should_suggest := false, suggested_approach := "cautious" }
          else g1
        let top_rejections :=
          (pattern.common_rejection_reasons.insertionSort (fun x y => y.2 ≤ x.2)).take 3
        let g3 := { g2 with avoid_patterns :=
          top_rejections.map (fun r : String × ℕ => r.1) }
        let preferred := (lastN 3 pattern.successful_suggestions).map
          (fun s : SuggestionSummary => s.business_suggestion)
        { g3 with preferred_patterns := preferred }
  { g with similar_contexts := find_similar_contexts db.entries current_action business_context }

/-! ### Spec-side description of the similarity scan (for the refinement
claim about `_find_similar_contexts`) -/

/-- The Jaccard overlap of two finite sets, as the spec words it
(`0` when both sets are empty). -/
def jaccard_overlap (s1 s2 : Finset String) : ℚ :=
  if (s1 ∪ s2).card = 0 then 0
  else ((s1 ∩ s2).card : ℚ) / ((s1 ∪ s2).card : ℚ)

/-- The spec's wording of the per-entry match score: +0.5 if the screen
matches case-insensitively, +0.3 if the action type matches exactly, +0.2 if
the Jaccard overlap of the two "most common screens" sets exceeds 0.3. -/
def spec_similarity_score (current_action : ActionDict)
    (business_context : BusinessContext) (e : LearningEntry) : ℚ :=
  (if strLower (e.suggestion_context.original_action.screen?.getD "")
      = strLower (current_action.screen?.getD "") then 5/10 else 0) +
  (if e.suggestion_context.original_action.type?.getD "" = current_action.type?.getD ""
   then 3/10 else 0) +
  (if jaccard_overlap business_context.most_common_screens.toFinset
        e.suggestion_context.business_context.most_common_screens.toFinset > 3/10
   then 2/10 else 0)

/-- The spec's wording of the whole scan: score the 50 most recent ledger
entries, keep those scoring at least 0.5, sort by descending score (ties in
original order), return the top 5. -/
def spec_similar_contexts (entries : List LearningEntry) (current_action : ActionDict)
    (business_context : BusinessContext) : List SimilarContext :=
  let recent := lastN 50 entries
  let scored := recent.map
    (fun e => similar_entry e (spec_similarity_score current_action business_context e))
  ((scored.filter (fun s => s.similarity_score ≥ 5/10)).insertionSort
    (fun x y => y.similarity_score ≤ x.similarity_score)).take 5

/-! ## Concrete fixtures used by witnesses and counterexamples -/

/-- A Pending proposal created at minute 0 (so `expires_at = 30`). -/
def sample_pending : PendingAction :=
  { action_id := "p1"
    session_id := "s1"
    created_at := 0
    expires_at := 30
    original_action := "open_screen"
    suggested_action := "PUT /SalesOrder"
    llm_suggestion := "Add related items?"
    status := Status.pending
    confirmed_at := none
    rejected_at := none
    executed_at := none
    execution_result := none }

/-- A proposal already rejected at minute 5. -/
def sample_rejected : PendingAction :=
  { sample_pending with
    action_id := "p2"
    status := Status.rejected
    rejected_at := some 5 }

/-- A confirmed proposal whose `expires_at` lies more than 24 hours in the
past relative to minute 0. -/
def sample_stale : PendingAction :=
  { sample_pending with
    action_id := "p3"
    created_at := -2000
    expires_at := -1970
    status := Status.confirmed
    confirmed_at := some (-1980) }

def rejected_store : Store := [("p2", sample_rejected)]

def stale_store : Store := [("p3", sample_stale)]

/-- The result of executing `p2` at minute 40. -/
def executed_p2 : PendingAction :=
  { sample_rejected with
    status := Status.executed
    executed_at := some 40
    execution_result := some "done" }

/-- The stale proposal as `mark_executed` leaves it at minute 0. -/
def executed_stale : PendingAction :=
  { sample_stale with
    status := Status.executed
    executed_at := some 0
    execution_result := some "r" }

/-- The proposal created by the witness Propose below. -/
def proposed_pnew : PendingAction :=
  { sample_pending with
    action_id := "pnew"
    session_id := "s9"
    original_action := "o"
    suggested_action := "g"
    llm_suggestion := "l" }

/-! ## Learning fixtures used by witnesses -/

def empty_bc : BusinessContext :=
  { most_common_screens := [], session_length := 0, action_frequency := [] }

def t0 : PyDateTime := { stamp := 0, hour := 9 }

/-- A suggestion context whose `original_action` lacks both `type` and
`payload.screen`. -/
def anon_ctx : SuggestionContext :=
  { original_action := { type? := none, screen? := none }
    suggested_action := none
    business_suggestion := "try this"
    business_context := empty_bc }

def anon_entry : LearningEntry :=
  LearningEntry.make "e1" t0 anon_ctx UserAction.accepted none none

def call1 : FeedbackCall :=
  { freshId := "e1"
    now := t0
    suggestion_context := anon_ctx
    user_action := UserAction.accepted
    feedback_reason := none
    execution_result := none }

def empty_db : LearningDatabase := { entries := [], patterns := [] }

/-- Stats with a success rate of 1/4 (< 0.3) under the shared missing-field
key. -/
def cautious_stats : PatternStats :=
  { total_suggestions := 4
    accepted := 1
    rejected := 3
    ignored := 0
    success_rate := 1/4
    common_rejection_reasons := [("wrong vendor", 3)]
    successful_suggestions := []
    failed_suggestions := []
    last_updated := t0 }

def cautious_db : LearningDatabase :=
  { entries := [], patterns := [("None_None", cautious_stats)] }

/-- Stats whose accepted rolling list is already at the 10-entry bound. -/
def full_stats : PatternStats :=
  { init_pattern_stats t0 with
    successful_suggestions := List.replicate 10 (make_suggestion_summary anon_entry) }

/-! ## Theorems -/

theorem dictGet_dictSet {α : Type} (l : List (String × α)) (k k' : String) (v : α) :
    dictGet (dictSet l k v) k' = if k = k' then some v else dictGet l k' := by
  induction l with
  | nil =>
      by_cases h : k = k' <;> simp [dictGet, dictSet, h]
  | cons p rest ih =>
      obtain ⟨k₀, v₀⟩ := p
      simp only [dictSet]
      by_cases h0 : k₀ = k
      · subst h0
        simp only [if_pos rfl]
        by_cases h1 : k₀ = k' <;> simp [dictGet, h1]
      · rw [if_neg h0]
        by_cases h1 : k₀ = k'
        · subst h1
          have h2 : ¬ k = k₀ := fun h => h0 h.symm
          simp [dictGet, h2]
        · simp [dictGet, h1, ih]

theorem dictGet_mem {α : Type} {l : List (String × α)} {k : String} {v : α}
    (h : dictGet l k = some v) : (k, v) ∈ l := by
  induction l with
  | nil => simp [dictGet] at h
  | cons p rest ih =>
      obtain ⟨k₀, v₀⟩ := p
      by_cases h0 : k₀ = k
      · subst h0
        simp [dictGet] at h
        simp [h]
      · simp [dictGet, h0] at h
        exact List.mem_cons_of_mem _ (ih h)

theorem lastN_length_le {α : Type} (n : ℕ) (l : List α) : (lastN n l).length ≤ n := by
  simp [lastN]
  omega

theorem lastN_of_length_le {α : Type} {n : ℕ} {l : List α} (h : l.length ≤ n) :
    lastN n l = l := by
  simp [lastN, Nat.sub_eq_zero_of_le h]

theorem lastN_append_singleton_of_length_eq {α : Type} {n : ℕ} {l : List α} (a : α)
    (h : l.length = n) (hn : 1 ≤ n) :
    lastN n (l ++ [a]) = l.drop 1 ++ [a] := by
  have hlen : (l ++ [a]).length = n + 1 := by simp [h]
  have h1 : 1 ≤ l.length := h ▸ hn
  simp only [lastN, hlen, Nat.add_sub_cancel_left]
  exact List.drop_append_of_le_length h1

/-! ## Claims about the proposal state machine -/

/-- Claim C1: `confirm_action` succeeds — returning the proposal with status
Confirmed and `confirmed_at` stamped, and storing it — exactly when the id
exists, its status is Pending, and `now ≤ expires_at`; when the proposal is
Pending but the TTL has passed, it returns `none` and transitions the stored
proposal from Pending to Expired as a side effect. -/
theorem confirm_action_correct (now : ℤ) (store : Store) (id : String) :
    ((∃ p, (confirm_action now store id).1 = some p ∧
        p.status = Status.confirmed ∧ p.confirmed_at = some now ∧
        dictGet (confirm_action now store id).2 id = some p) ↔
      (∃ a, dictGet store id = some a ∧ a.status = Status.pending ∧
        now ≤ a.expires_at)) ∧
    (∀ a, dictGet store id = some a → a.status = Status.pending →
      a.expires_at < now →
      (confirm_action now store id).1 = none ∧
      dictGet (confirm_action now store id).2 id =
        some { a with status := Status.expired }) := by
  constructor
  · constructor
    · rintro ⟨p, hp, hst, hca, hget⟩
      cases hdg : dictGet store id with
      | none => simp [confirm_action, hdg] at hp
      | some a =>
          by_cases hs : a.status = Status.pending
          · by_cases he : a.expires_at < now
            · simp [confirm_action, hdg, hs, he] at hp
            · exact ⟨a, rfl, hs, le_of_not_lt he⟩
          · simp [confirm_action, hdg, hs] at hp
    · rintro ⟨a, hdg, hs, he⟩
      have hlt : ¬ a.expires_at < now := not_lt.mpr he
      refine ⟨{ a with status := Status.confirmed, confirmed_at := some now },
        ?_, rfl, rfl, ?_⟩
      · simp [confirm_action, hdg, hs, hlt]
      · simp [confirm_action, hdg, hs, hlt, dictGet_dictSet]
  · intro a hdg hs he
    constructor
    · simp [confirm_action, hdg, hs, he]
    · simp [confirm_action, hdg, hs, he, dictGet_dictSet]

/-- Witness for C1: confirming a live Pending proposal at minute 10
succeeds. -/
theorem confirm_action_correct_witness :
    ∃ p, (confirm_action 10 [("p1", sample_pending)] "p1").1 = some p ∧
      p.status = Status.confirmed ∧ p.confirmed_at = some 10 ∧
      dictGet (confirm_action 10 [("p1", sample_pending)] "p1").2 "p1" = some p :=
  (confirm_action_correct 10 [("p1", sample_pending)] "p1").1.mpr
    ⟨sample_pending, by decide, by decide, by decide⟩

/-- Claim C3 counterexample: a Confirm that fails because the id is unknown
and a Reject that fails because the proposal is already rejected return the
same value `none` — the caller cannot tell the causes apart, so the failures
are not distinguishable typed results. -/
theorem failure_results_indistinguishable :
    (confirm_action 40 rejected_store "missing").1 = none ∧
    (reject_action 40 rejected_store "p2").1 = none ∧
    (confirm_action 40 rejected_store "missing").1 =
      (reject_action 40 rejected_store "p2").1 := by
  decide

/-- Claim C3 (amended): a failed Confirm or Reject returns the single
undifferentiated failure value `none` regardless of cause — unknown id,
non-Pending status, or (for Confirm) a Pending proposal whose TTL has
elapsed; in particular a second Reject on an already-rejected id returns
`none` and leaves the store — hence the proposal's status and `rejected_at`
— unchanged. -/
theorem failed_confirm_reject_return_none (now : ℤ) (store : Store) (id : String) :
    (dictGet store id = none →
      (confirm_action now store id).1 = none ∧
      reject_action now store id = (none, store)) ∧
    (∀ a, dictGet store id = some a → a.status ≠ Status.pending →
      (confirm_action now store id).1 = none ∧
      reject_action now store id = (none, store)) ∧
    (∀ a, dictGet store id = some a → a.status = Status.pending →
      a.expires_at < now →
      (confirm_action now store id).1 = none) := by
  refine ⟨?_, ?_, ?_⟩
  · intro h
    constructor
    · simp [confirm_action, h]
    · simp [reject_action, h]
  · intro a h hs
    constructor
    · simp [confirm_action, h, hs]
    · simp [reject_action, h, hs]
  · intro a h hs he
    simp [confirm_action, h, hs, he]

/-- Witness for the amended C3: a second Reject on the already-rejected `p2`
returns `none` and leaves the store unchanged, and a Confirm of the Pending
`p1` after its TTL (minute 40 > 30) also returns `none`. -/
theorem failed_confirm_reject_return_none_witness :
    (confirm_action 40 rejected_store "p2").1 = none ∧
    reject_action 40 rejected_store "p2" = (none, rejected_store) ∧
    (confirm_action 40 [("p1", sample_pending)] "p1").1 = none :=
  ⟨((failed_confirm_reject_return_none 40 rejected_store "p2").2.1
      sample_rejected (by decide) (by decide)).1,
   ((failed_confirm_reject_return_none 40 rejected_store "p2").2.1
      sample_rejected (by decide) (by decide)).2,
   (failed_confirm_reject_return_none 40 [("p1", sample_pending)] "p1").2.2
      sample_pending (by decide) (by decide) (by decide)⟩

/-- Claim C5: for every existing proposal, whatever its current status,
`mark_executed` returns and stores the proposal with status Executed and
with `executed_at` and `execution_result` stamped. -/
theorem mark_executed_any_status (now : ℤ) (store : Store) (id res : String) :
    ∀ a, dictGet store id = some a →
      (mark_executed now store id res).1 =
        some { a with status := Status.executed, executed_at := some now,
                      execution_result := some res } ∧
      dictGet (mark_executed now store id res).2 id =
        some { a with status := Status.executed, executed_at := some now,
                      execution_result := some res } := by
  intro a h
  constructor
  · simp [mark_executed, h]
  · simp [mark_executed, h, dictGet_dictSet]

/-- Witness for C5: marking the already-rejected `p2` as executed succeeds
and stamps the execution fields. -/
theorem mark_executed_any_status_witness :
    (mark_executed 40 rejected_store "p2" "done").1 = some executed_p2 ∧
    dictGet (mark_executed 40 rejected_store "p2" "done").2 "p2" = some executed_p2 :=
  mark_executed_any_status 40 rejected_store "p2" "done" sample_rejected (by decide)

/-- Claim C8 counterexample: Confirm, Reject and MarkExecuted perform no
retention sweep — after each of them at minute 0 the store still contains
the stale proposal `p3`, although its `expires_at` (−1970) is more than 24
hours (1440 minutes) in the past. -/
theorem mutations_keep_stale_proposal :
    (dictGet (mark_executed 0 stale_store "p3" "r").2 "p3" = some executed_stale ∧
      executed_stale.expires_at < 0 - 1440) ∧
    (dictGet (confirm_action 0 stale_store "p3").2 "p3" = some sample_stale ∧
      sample_stale.expires_at < 0 - 1440) ∧
    dictGet (reject_action 0 stale_store "p3").2 "p3" = some sample_stale := by
  decide

/-- Each of the three transition methods that touch an existing binding
stores a record with the same `expires_at` (used for the amended C8). -/
theorem dictGet_dictSet_expires (store : Store) (id k : String)
    (a a' action : PendingAction)
    (h : dictGet store k = some a) (hdg : dictGet store id = some action)
    (hexp : a'.expires_at = action.expires_at) :
    ∃ b, dictGet (dictSet store id a') k = some b ∧ b.expires_at = a.expires_at := by
  rw [dictGet_dictSet]
  by_cases hk : id = k
  · refine ⟨a', by simp [hk], ?_⟩
    rw [hexp]
    subst hk
    rw [hdg] at h
    injection h with h2
    rw [h2]
  · exact ⟨a, by simp [hk, h], rfl⟩

/-- Claim C8 (amended): only `create_pending_action` (and the read
accessors) invoke the retention sweep — after a Propose, the store contains
no proposal whose `expires_at` is more than 24 hours in the past; Confirm,
Reject and MarkExecuted do not run the sweep: each leaves every stored
proposal present with its `expires_at` unchanged, so a stale proposal
survives them. -/
theorem retention_sweep_only_on_propose :
    (∀ (now : ℤ) (fid sid oa sa llm : String) (store : Store) (id : String)
      (a : PendingAction),
      dictGet (create_pending_action now fid sid oa sa llm store).2 id = some a →
      ¬ a.expires_at < now - 1440) ∧
    (∀ (now : ℤ) (store : Store) (id k : String) (a : PendingAction),
      dictGet store k = some a →
      ∃ b, dictGet (confirm_action now store id).2 k = some b ∧
        b.expires_at = a.expires_at) ∧
    (∀ (now : ℤ) (store : Store) (id k : String) (a : PendingAction),
      dictGet store k = some a →
      ∃ b, dictGet (reject_action now store id).2 k = some b ∧
        b.expires_at = a.expires_at) ∧
    (∀ (now : ℤ) (store : Store) (id k res : String) (a : PendingAction),
      dictGet store k = some a →
      ∃ b, dictGet (mark_executed now store id res).2 k = some b ∧
        b.expires_at = a.expires_at) := by
  refine ⟨?_, ?_, ?_, ?_⟩
  · intro now fid sid oa sa llm store id a h
    have hmem := dictGet_mem h
    simp only [create_pending_action, cleanup_expired] at hmem
    have hp := (List.mem_filter.mp hmem).2
    simpa using hp
  · intro now store id k a h
    cases hdg : dictGet store id with
    | none => exact ⟨a, by simp [confirm_action, hdg, h], rfl⟩
    | some action =>
        by_cases hs : action.status = Status.pending
        · by_cases he : action.expires_at < now
          · have hset := dictGet_dictSet_expires store id k a
              { action with status := Status.expired } action h hdg rfl
            simpa [confirm_action, hdg, hs, he] using hset
          · have hset := dictGet_dictSet_expires store id k a
              { action with status := Status.confirmed, confirmed_at := some now }
              action h hdg rfl
            simpa [confirm_action, hdg, hs, he] using hset
        · exact ⟨a, by simp [confirm_action, hdg, hs, h], rfl⟩
  · intro now store id k a h
    cases hdg : dictGet store id with
    | none => exact ⟨a, by simp [reject_action, hdg, h], rfl⟩
    | some action =>
        by_cases hs : action.status = Status.pending
        · have hset := dictGet_dictSet_expires store id k a
            { action with status := Status.rejected, rejected_at := some now }
            action h hdg rfl
          simpa [reject_action, hdg, hs] using hset
        · exact ⟨a, by simp [reject_action, hdg, hs, h], rfl⟩
  · intro now store id k res a h
    cases hdg : dictGet store id with
    | none => exact ⟨a, by simp [mark_executed, hdg, h], rfl⟩
    | some action =>
        have hset := dictGet_dictSet_expires store id k a
          { action with status := Status.executed, executed_at := some now, execution_result := some res }
          action h hdg rfl
        simpa [mark_executed, hdg] using hset

/-- Witness for the amended C8: after proposing on top of the stale store at
minute 0 the fresh proposal is within the retention window, while Confirm,
Reject and MarkExecuted each leave the stale `p3` in place with its
`expires_at` intact. -/
theorem retention_sweep_only_on_propose_witness :
    (¬ proposed_pnew.expires_at < 0 - 1440) ∧
    (∃ b, dictGet (confirm_action 0 stale_store "p3").2 "p3" = some b ∧
      b.expires_at = sample_stale.expires_at) ∧
    (∃ b, dictGet (reject_action 0 stale_store "p3").2 "p3" = some b ∧
      b.expires_at = sample_stale.expires_at) ∧
    (∃ b, dictGet (mark_executed 0 stale_store "p3" "r").2 "p3" = some b ∧
      b.expires_at = sample_stale.expires_at) :=
  ⟨retention_sweep_only_on_propose.1 0 "pnew" "s9" "o" "g" "l" stale_store "pnew"
      proposed_pnew (by decide),
   retention_sweep_only_on_propose.2.1 0 stale_store "p3" "p3" sample_stale (by decide),
   retention_sweep_only_on_propose.2.2.1 0 stale_store "p3" "p3" sample_stale (by decide),
   retention_sweep_only_on_propose.2.2.2 0 stale_store "p3" "p3" "r" sample_stale
      (by decide)⟩

/-! ## Helper lemmas about the pattern aggregator -/

theorem dictGet_update_patterns (now : PyDateTime) (e : LearningEntry)
    (ps : List (String × PatternStats)) (key : String) :
    dictGet (update_patterns now e ps) key =
      if pattern_key_of_features e.pattern_features = key
      then some (updated_stats now e
        ((dictGet ps (pattern_key_of_features e.pattern_features)).getD
          (init_pattern_stats now)))
      else dictGet ps key := by
  simp [update_patterns, dictGet_dictSet]

theorem updated_stats_success_rate (now : PyDateTime) (e : LearningEntry)
    (p0 : PatternStats) :
    (updated_stats now e p0).success_rate =
      ((updated_stats now e p0).accepted : ℚ) /
        ((updated_stats now e p0).total_suggestions : ℚ) := by
  cases hu : e.user_action <;> cases hr : e.feedback_reason <;>
    simp [updated_stats, bump_user_action, hu, hr]

theorem updated_stats_lists_le (now : PyDateTime) (e : LearningEntry)
    (p0 : PatternStats)
    (h1 : p0.successful_suggestions.length ≤ 10)
    (h2 : p0.failed_suggestions.length ≤ 10) :
    (updated_stats now e p0).successful_suggestions.length ≤ 10 ∧
    (updated_stats now e p0).failed_suggestions.length ≤ 10 := by
  cases hu : e.user_action <;> cases hr : e.feedback_reason <;>
    constructor <;>
    simp [updated_stats, bump_user_action, hu, hr] <;>
    first
      | exact h1
      | exact h2
      | exact lastN_length_le _ _

theorem feedback_fold_preserves (P : List (String × PatternStats) → Prop)
    (hP : ∀ (now : PyDateTime) (e : LearningEntry) ps, P ps → P (update_patterns now e ps))
    (calls : List FeedbackCall) :
    ∀ db : LearningDatabase, P db.patterns → P ((calls.foldl feedback_step db).patterns) := by
  induction calls with
  | nil => intro db h; simpa using h
  | cons c cs ih =>
      intro db h
      rw [List.foldl_cons]
      refine ih (feedback_step db c) ?_
      have hstep := hP c.now
        (LearningEntry.make c.freshId c.now c.suggestion_context c.user_action
          c.feedback_reason c.execution_result) db.patterns h
      simpa [feedback_step, record_feedback] using hstep

/-! ## Claims about the feedback aggregator -/

/-- Claim C2: after any sequence of `record_feedback` calls, every stored
pattern's `success_rate` equals `accepted / total_suggestions` exactly. -/
theorem success_rate_exact (calls : List FeedbackCall) (key : String)
    (stats : PatternStats)
    (h : dictGet (run_feedback calls).patterns key = some stats) :
    stats.success_rate = (stats.accepted : ℚ) / (stats.total_suggestions : ℚ) := by
  have hinv := feedback_fold_preserves
    (fun ps => ∀ k s, dictGet ps k = some s →
      s.success_rate = (s.accepted : ℚ) / (s.total_suggestions : ℚ))
    (fun now e ps hps => by
      intro k s hk
      rw [dictGet_update_patterns] at hk
      by_cases hkey : pattern_key_of_features e.pattern_features = k
      · rw [if_pos hkey] at hk
        simp only [Option.some.injEq] at hk
        subst hk
        exact updated_stats_success_rate now e _
      · rw [if_neg hkey] at hk
        exact hps k s hk)
    calls { entries := [], patterns := [] }
    (by intro k s hk; simp [dictGet] at hk)
  rw [run_feedback] at h
  exact hinv key stats h

/-- Witness for C2: one accepted feedback call stores a pattern whose
success rate is its accepted/total ratio. -/
theorem success_rate_exact_witness :
    ∃ stats, dictGet (run_feedback [call1]).patterns "None_None" = some stats ∧
      stats.success_rate = (stats.accepted : ℚ) / (stats.total_suggestions : ℚ) :=
  ⟨_, rfl, success_rate_exact [call1] "None_None" _ rfl⟩

/-- Claim C6: the rolling accepted/rejected lists of every stored pattern
never exceed 10 entries across any sequence of `record_feedback` calls; the
per-call mutation stores `updated_stats` under the entry's key, and when an
append would exceed 10 the oldest element is dropped while the order of the
rest is preserved (otherwise the summary is appended in order). -/
theorem rolling_lists_bounded_fifo :
    (∀ (calls : List FeedbackCall) (key : String) (stats : PatternStats),
      dictGet (run_feedback calls).patterns key = some stats →
      stats.successful_suggestions.length ≤ 10 ∧
      stats.failed_suggestions.length ≤ 10) ∧
    (∀ (now : PyDateTime) (e : LearningEntry) (ps : List (String × PatternStats)),
      dictGet (update_patterns now e ps) (pattern_key_of_features e.pattern_features) =
        some (updated_stats now e
          ((dictGet ps (pattern_key_of_features e.pattern_features)).getD
            (init_pattern_stats now)))) ∧
    (∀ (now : PyDateTime) (e : LearningEntry) (p0 : PatternStats),
      e.user_action = UserAction.accepted →
      p0.successful_suggestions.length = 10 →
      (updated_stats now e p0).successful_suggestions =
        p0.successful_suggestions.drop 1 ++ [make_suggestion_summary e]) ∧
    (∀ (now : PyDateTime) (e : LearningEntry) (p0 : PatternStats),
      e.user_action = UserAction.accepted →
      p0.successful_suggestions.length < 10 →
      (updated_stats now e p0).successful_suggestions =
        p0.successful_suggestions ++ [make_suggestion_summary e]) ∧
    (∀ (now : PyDateTime) (e : LearningEntry) (p0 : PatternStats),
      e.user_action = UserAction.rejected →
      p0.failed_suggestions.length = 10 →
      (updated_stats now e p0).failed_suggestions =
        p0.failed_suggestions.drop 1 ++
          [{ make_suggestion_summary e with reason := e.feedback_reason }]) := by
  refine ⟨?_, ?_, ?_, ?_, ?_⟩
  · intro calls key stats h
    have hinv := feedback_fold_preserves
      (fun ps => ∀ k s, dictGet ps k = some s →
        s.successful_suggestions.length ≤ 10 ∧ s.failed_suggestions.length ≤ 10)
      (fun now e ps hps => by
        intro k s hk
        rw [dictGet_update_patterns] at hk
        by_cases hkey : pattern_key_of_features e.pattern_features = k
        · rw [if_pos hkey] at hk
          simp only [Option.some.injEq] at hk
          subst hk
          cases hdg : dictGet ps (pattern_key_of_features e.pattern_features) with
          | none =>
              simp only [hdg, Option.getD_none]
              exact updated_stats_lists_le now e _ (by simp [init_pattern_stats])
                (by simp [init_pattern_stats])
          | some p' =>
              simp only [hdg, Option.getD_some]
              exact updated_stats_lists_le now e p' (hps _ p' hdg).1 (hps _ p' hdg).2
        · rw [if_neg hkey] at hk
          exact hps k s hk)
      calls { entries := [], patterns := [] }
      (by intro k s hk; simp [dictGet] at hk)
    rw [run_feedback] at h
    exact hinv key stats h
  · intro now e ps
    rw [dictGet_update_patterns, if_pos rfl]
  · intro now e p0 hu hlen
    simp only [updated_stats, bump_user_action, hu]
    exact lastN_append_singleton_of_length_eq _ hlen (by norm_num)
  · intro now e p0 hu hlen
    simp only [updated_stats, bump_user_action, hu]
    exact lastN_of_length_le (by simp; omega)
  · intro now e p0 hu hlen
    cases hr : e.feedback_reason <;>
      simp only [updated_stats, bump_user_action, hu, hr] <;>
      exact lastN_append_singleton_of_length_eq _ hlen (by norm_num)

/-- Witness for C6: one call keeps the lists within bound, and an accepted
entry hitting a full list of 10 drops exactly the oldest element. -/
theorem rolling_lists_bounded_fifo_witness :
    (∃ stats, dictGet (run_feedback [call1]).patterns "None_None" = some stats ∧
      stats.successful_suggestions.length ≤ 10 ∧
      stats.failed_suggestions.length ≤ 10) ∧
    (updated_stats t0 anon_entry full_stats).successful_suggestions =
      (List.replicate 10 (make_suggestion_summary anon_entry)).drop 1 ++
        [make_suggestion_summary anon_entry] := by
  constructor
  · exact ⟨_, rfl, rolling_lists_bounded_fifo.1 [call1] "None_None" _ rfl⟩
  · have h := rolling_lists_bounded_fifo.2.2.1 t0 anon_entry full_stats rfl
      (by simp [full_stats, init_pattern_stats])
    simpa [full_stats, init_pattern_stats] using h

/-- Claim C9: `from_dict` is a left inverse of `to_dict` — every field,
including the stored `context_hash` and `pattern_features`, is restored
verbatim, whatever fresh id and timestamp the constructor draws. -/
theorem learning_entry_roundtrip (e : LearningEntry) (freshId : String)
    (now : PyDateTime) :
    LearningEntry.from_dict freshId now (LearningEntry.to_dict e) = e := by
  cases e
  rfl

/-- Claim C10: feedback whose context lacks both the action `type` and the
payload `screen` lands in the single shared bucket `"None_None"` (leaving
every other bucket untouched), and a guidance query with an equally-missing
`current_action` reads its historical success rate from that same bucket. -/
theorem missing_fields_share_bucket (fid : String) (now : PyDateTime)
    (ctx : SuggestionContext) (ua : UserAction) (reason res : Option String)
    (db : LearningDatabase) (ca : ActionDict) (bc : BusinessContext) :
    (ctx.original_action.type? = none → ctx.original_action.screen? = none →
      pattern_key_of_features
        (LearningEntry.make fid now ctx ua reason res).pattern_features = "None_None" ∧
      (dictGet (record_feedback fid now ctx ua reason res db).2.patterns
        "None_None").isSome = true ∧
      (∀ k, k ≠ "None_None" →
        dictGet (record_feedback fid now ctx ua reason res db).2.patterns k =
          dictGet db.patterns k)) ∧
    (ca.type? = none → ca.screen? = none →
      pattern_key_of_action ca = "None_None" ∧
      (∀ p, dictGet db.patterns "None_None" = some p →
        (get_suggestion_guidance db ca bc).historical_success_rate =
          p.success_rate)) := by
  constructor
  · intro h1 h2
    have hkey : pattern_key_of_features
        (LearningEntry.make fid now ctx ua reason res).pattern_features = "None_None" := by
      simp only [pattern_key_of_features, LearningEntry.make, extract_pattern_features,
        h1, h2, pyStrOpt]
      rfl
    refine ⟨hkey, ?_, ?_⟩
    · simp [record_feedback, dictGet_update_patterns, hkey]
    · intro k hk
      have hkne : ¬ ("None_None" = k) := fun h => hk h.symm
      simp [record_feedback, dictGet_update_patterns, hkey, hkne]
  · intro h1 h2
    have hkey2 : pattern_key_of_action ca = "None_None" := by
      simp only [pattern_key_of_action, h1, h2, pyStrOpt]
      rfl
    refine ⟨hkey2, ?_⟩
    intro p hp
    by_cases hc : p.success_rate < 3/10 <;>
      simp [get_suggestion_guidance, hkey2, hp, hc, default_guidance]

/-- Witness for C10: concrete missing-field feedback and guidance share the
bucket `"None_None"`, and an unrelated key is untouched. -/
theorem missing_fields_share_bucket_witness :
    pattern_key_of_features
      (LearningEntry.make "e1" t0 anon_ctx UserAction.accepted none none).pattern_features
        = "None_None" ∧
    (dictGet (record_feedback "e1" t0 anon_ctx UserAction.accepted none none
      empty_db).2.patterns "None_None").isSome = true ∧
    dictGet (record_feedback "e1" t0 anon_ctx UserAction.accepted none none
      empty_db).2.patterns "other" = dictGet empty_db.patterns "other" ∧
    pattern_key_of_action { type? := none, screen? := none } = "None_None" := by
  have h := missing_fields_share_bucket "e1" t0 anon_ctx UserAction.accepted none none
    empty_db { type? := none, screen? := none } empty_bc
  have h1 := h.1 rfl rfl
  have h2 := h.2 rfl rfl
  exact ⟨h1.1, h1.2.1, h1.2.2 "other" (by decide), h2.1⟩

/-- Claim C4: guidance on an unseen pattern key is the default package
(suggest, confidence 0.5, "standard" approach, empty lists, zero history);
when stats exist, the historical rate is the pattern's success rate, the
confidence is `min 0.9 success_rate`, and below a 0.3 success rate the
guidance switches to not-suggest with the "cautious" approach. -/
theorem guidance_fields (db : LearningDatabase) (ca : ActionDict)
    (bc : BusinessContext) :
    (dictGet db.patterns (pattern_key_of_action ca) = none →
      (get_suggestion_guidance db ca bc).should_suggest = true ∧
      (get_suggestion_guidance db ca bc).confidence_score = 5/10 ∧
      (get_suggestion_guidance db ca bc).suggested_approach = "standard" ∧
      (get_suggestion_guidance db ca bc).avoid_patterns = [] ∧
      (get_suggestion_guidance db ca bc).preferred_patterns = [] ∧
      (get_suggestion_guidance db ca bc).historical_success_rate = 0) ∧
    (∀ p, dictGet db.patterns (pattern_key_of_action ca) = some p →
      (get_suggestion_guidance db ca bc).historical_success_rate = p.success_rate ∧
      (get_suggestion_guidance db ca bc).confidence_score = min (9/10) p.success_rate ∧
      (p.success_rate < 3/10 →
        (get_suggestion_guidance db ca bc).should_suggest = false ∧
        (get_suggestion_guidance db ca bc).suggested_approach = "cautious")) := by
  constructor
  · intro h
    simp [get_suggestion_guidance, h, default_guidance]
  · intro p hp
    refine ⟨?_, ?_, ?_⟩
    · by_cases hc : p.success_rate < 3/10 <;>
        simp [get_suggestion_guidance, hp, hc, default_guidance]
    · by_cases hc : p.success_rate < 3/10 <;>
        simp [get_suggestion_guidance, hp, hc, default_guidance]
    · intro hc
      constructor <;> simp [get_suggestion_guidance, hp, hc, default_guidance]

/-- Witness for C4: on stats with success rate 1/4 under the queried key,
guidance reports that rate, caps confidence, and turns cautious. -/
theorem guidance_fields_witness :
    (get_suggestion_guidance cautious_db { type? := none, screen? := none }
      empty_bc).historical_success_rate = cautious_stats.success_rate ∧
    (get_suggestion_guidance cautious_db { type? := none, screen? := none }
      empty_bc).confidence_score = min (9/10) cautious_stats.success_rate ∧
    (get_suggestion_guidance cautious_db { type? := none, screen? := none }
      empty_bc).should_suggest = false ∧
    (get_suggestion_guidance cautious_db { type? := none, screen? := none }
      empty_bc).suggested_approach = "cautious" := by
  have h := (guidance_fields cautious_db { type? := none, screen? := none } empty_bc).2
    cautious_stats rfl
  have hc : cautious_stats.success_rate < 3/10 := by norm_num [cautious_stats]
  exact ⟨h.1, h.2.1, (h.2.2 hc).1, (h.2.2 hc).2⟩

/-! ## The similarity scan matches its spec description -/

theorem contexts_similar_iff_jaccard (c1 c2 : BusinessContext) :
    contexts_similar c1 c2 = true ↔
      jaccard_overlap c1.most_common_screens.toFinset
        c2.most_common_screens.toFinset > 3/10 := by
  unfold contexts_similar jaccard_overlap
  by_cases h1 : c1.most_common_screens.toFinset = ∅
  · simp [h1]
    norm_num
  · by_cases h2 : c2.most_common_screens.toFinset = ∅
    · simp [h1, h2]
      norm_num
    · have hs1 : c1.most_common_screens.toFinset.Nonempty :=
        Finset.nonempty_iff_ne_empty.mpr h1
      have hpos : 0 < (c1.most_common_screens.toFinset ∪
          c2.most_common_screens.toFinset).card :=
        Finset.card_pos.mpr (hs1.mono Finset.subset_union_left)
      simp [h1, h2, hpos, hpos.ne']

theorem entry_similarity_eq_spec (ca : ActionDict) (bc : BusinessContext)
    (e : LearningEntry) :
    entry_similarity ca bc e = spec_similarity_score ca bc e := by
  have h3 := contexts_similar_iff_jaccard bc e.suggestion_context.business_context
  by_cases hc : contexts_similar bc e.suggestion_context.business_context = true
  · simp [entry_similarity, spec_similarity_score, hc, h3.mp hc]
  · have hj : ¬ jaccard_overlap bc.most_common_screens.toFinset
        e.suggestion_context.business_context.most_common_screens.toFinset > 3/10 :=
      fun hj => hc (h3.mpr hj)
    simp [entry_similarity, spec_similarity_score, hc, hj]

theorem find_similar_loop_eq (ca : ActionDict) (bc : BusinessContext)
    (l : List LearningEntry) (acc : List SimilarContext) :
    l.foldl
      (fun similar entry =>
        if entry_similarity ca bc entry ≥ 5/10
        then similar ++ [similar_entry entry (entry_similarity ca bc entry)]
        else similar) acc =
      acc ++ (l.filter (fun e => decide (entry_similarity ca bc e ≥ 5/10))).map
        (fun e => similar_entry e (entry_similarity ca bc e)) := by
  induction l generalizing acc with
  | nil => simp
  | cons x xs ih =>
      by_cases hx : entry_similarity ca bc x ≥ 5/10 <;>
        simp [List.filter_cons, hx, ih]

theorem map_filter_comm {α β : Type} (f : α → β) (q : β → Bool) (l : List α) :
    (l.map f).filter q = (l.filter (fun a => q (f a))).map f := by
  induction l with
  | nil => simp
  | cons x xs ih =>
      by_cases hx : q (f x) = true <;> simp [List.filter_cons, hx, ih]

/-- Claim C7: `_find_similar_contexts` computes exactly the spec's pipeline —
score the 50 most recent ledger entries with the +0.5/+0.3/+0.2 weights
(the last via a Jaccard overlap above 0.3), keep scores ≥ 0.5, sort
descending, return the top 5. -/
theorem find_similar_contexts_correct (entries : List LearningEntry)
    (ca : ActionDict) (bc : BusinessContext) :
    find_similar_contexts entries ca bc = spec_similar_contexts entries ca bc := by
  unfold find_similar_contexts spec_similar_contexts
  rw [find_similar_loop_eq]
  simp only [List.nil_append, map_filter_comm, entry_similarity_eq_spec, similar_entry]
